import Mathlib

/-!
Abstract syntax tree of the modelling language (`src/stan/gm/ast.hpp`).

A shallow embedding of the tree types of `stan::gm` and of the few operations the
header defines on them: the `is_nil_op` visitor, `is_nil`, the four chain-building
assignment operators of `expression`, the constructors of the aggregates and the
accessors of `expr_type`.

Conventions of the embedding.

* A `boost::variant<...>` is an inductive type with one constructor per bounded
  type, in the order of the C++ type list; `boost::recursive_wrapper<T>` is `T`.
* A C++ `struct` is a one-constructor type whose fields carry the C++ names and
  keep the C++ declaration order.  The default constructor of a struct is the
  definition `T.default`, a constructor taking arguments is `T.ctor`.
* `std::vector<T>` is `List T`, `std::string` is `String`, `char` is `Char` (the
  values of a C++ `char` are among its code points).
* `int` is `Int`, `unsigned int` is a `Nat` below `2 ^ 32`.  A `double` literal is
  kept as its 64-bit IEEE-754 pattern (a `Nat`); no claim computes with it.
* A member function that changes `*this` returns the new value of the object
  together with the value it returns.
-/

namespace stan.gm

/-! ## Expressions -/

/-- A `double` value, held as its bit pattern. -/
abbrev double := Nat

mutual
/-- The variant `expression::expression_t`. -/
inductive expression_t : Type where
  | nil : expression_t
  | int (i : Int) : expression_t
  | double (d : double) : expression_t
  | string (s : String) : expression_t
  | fun_ (f : fun_) : expression_t
  | index_op (x : index_op) : expression_t
  | binary_op (b : binary_op) : expression_t
  | unary_op (u : unary_op) : expression_t
/-- The struct `expression`: a wrapper around its variant `expr_`. -/
inductive expression : Type where
  | mk (expr_ : expression_t) : expression
/-- The struct `fun` (the name is a keyword of Lean, whence the underscore). -/
inductive fun_ : Type where
  | mk (name_ : String) (args_ : List expression) : fun_
/-- The struct `index_op`. -/
inductive index_op : Type where
  | mk (expr_ : expression) (dimss_ : List (List expression)) : index_op
/-- The struct `binary_op`. -/
inductive binary_op : Type where
  | mk (op : Char) (left : expression) (right : expression) : binary_op
/-- The struct `unary_op`. -/
inductive unary_op : Type where
  | mk (op : Char) (subject : expression) : unary_op
end

/-- The field `expr_` of an `expression`. -/
def expression.expr_ : expression → expression_t
  | .mk x => x

/-- The constructor `expression()`: `expr_(nil())`. -/
def expression.default : expression := .mk .nil

/-- The constructor template `expression(const Expr& expr)`: `expr_(expr)`. The
argument is converted to the variant by the variant's own converting constructor,
which is the constructor of `expression_t` for the argument's type. -/
def expression.ctor (expr : expression_t) : expression := .mk expr

/-- The field `name_` of a `fun`. -/
def fun_.name_ : fun_ → String
  | .mk n _ => n

/-- The field `args_` of a `fun`. -/
def fun_.args_ : fun_ → List expression
  | .mk _ a => a

/-- The constructor `fun()`. -/
def fun_.default : fun_ := .mk "" []

/-- The constructor `fun(name, args)`. -/
def fun_.ctor (name : String) (args : List expression) : fun_ := .mk name args

/-- The field `expr_` of an `index_op`. -/
def index_op.expr_ : index_op → expression
  | .mk e _ => e

/-- The field `dimss_` of an `index_op`. -/
def index_op.dimss_ : index_op → List (List expression)
  | .mk _ d => d

/-- The constructor `index_op()`. -/
def index_op.default : index_op := .mk expression.default []

/-- The constructor `index_op(expr, dimss)`. -/
def index_op.ctor (expr : expression) (dimss : List (List expression)) : index_op :=
  .mk expr dimss

/-- The field `op` of a `binary_op`. -/
def binary_op.op : binary_op → Char
  | .mk o _ _ => o

/-- The field `left` of a `binary_op`. -/
def binary_op.left : binary_op → expression
  | .mk _ l _ => l

/-- The field `right` of a `binary_op`. -/
def binary_op.right : binary_op → expression
  | .mk _ _ r => r

/-- The constructor `binary_op(op, left, right)`. -/
def binary_op.ctor (op : Char) (left right : expression) : binary_op :=
  .mk op left right

/-- The field `op` of a `unary_op`. -/
def unary_op.op : unary_op → Char
  | .mk o _ => o

/-- The field `subject` of a `unary_op`. -/
def unary_op.subject : unary_op → expression
  | .mk _ s => s

/-- The constructor `unary_op(op, subject)`. -/
def unary_op.ctor (op : Char) (subject : expression) : unary_op := .mk op subject

/-! ## The visitor `is_nil_op` and `is_nil` -/

/-- The visitor `is_nil_op` applied to an `expression::expression_t`
(`boost::apply_visitor(is_nil_op(), v)`): the overload for `nil` answers `true`,
the template overload, taken by every other bounded type, answers `false`. -/
def is_nil_op.expression_t : expression_t → Bool
  | .nil => true
  | .int _ => false
  | .double _ => false
  | .string _ => false
  | .fun_ _ => false
  | .index_op _ => false
  | .binary_op _ => false
  | .unary_op _ => false

/-- The function `is_nil(const expression& e)`. -/
def is_nil (e : expression) : Bool := is_nil_op.expression_t e.expr_

/-! ## The chain-building operators of `expression` -/

/-- The member `expression::operator+=`: `expr_ = binary_op('+', expr_, rhs); return *this;`.
The left operand is an `expression` built from the current variant. First component:
the object after the call; second component: the value of the returned reference. -/
def expression.operator_add_assign (self rhs : expression) : expression × expression :=
  let self1 : expression :=
    .mk (.binary_op (binary_op.ctor '+' (expression.ctor self.expr_) rhs))
  (self1, self1)

/-- The member `expression::operator-=`: `expr_ = binary_op('-', expr_, rhs); return *this;`. -/
def expression.operator_sub_assign (self rhs : expression) : expression × expression :=
  let self1 : expression :=
    .mk (.binary_op (binary_op.ctor '-' (expression.ctor self.expr_) rhs))
  (self1, self1)

/-- The member `expression::operator*=`: `expr_ = binary_op('*', expr_, rhs); return *this;`. -/
def expression.operator_mul_assign (self rhs : expression) : expression × expression :=
  let self1 : expression :=
    .mk (.binary_op (binary_op.ctor '*' (expression.ctor self.expr_) rhs))
  (self1, self1)

/-- The member `expression::operator/=`: `expr_ = binary_op('/', expr_, rhs); return *this;`. -/
def expression.operator_div_assign (self rhs : expression) : expression × expression :=
  let self1 : expression :=
    .mk (.binary_op (binary_op.ctor '/' (expression.ctor self.expr_) rhs))
  (self1, self1)

/-- Modelled from the spec: the step that gives an existing indexing node one more
index group ("applying a second index group"). The header has no member for it; the
groups live in the public vector `dimss_`, and the step is `dimss_.push_back(group)`:
the base is kept and the group is added after the groups already there. -/
def index_op.push_back_dims (x : index_op) (group : List expression) : index_op :=
  .mk x.expr_ (x.dimss_ ++ [group])

/-! ## Variable references, distributions, ranges -/

/-- The struct `var`. -/
structure var where
  name_ : String
  dims_ : List expression

/-- The constructor `var()`. -/
def var.default : var := ⟨"", []⟩

/-- The constructor `var(name, dims)`. -/
def var.ctor (name : String) (dims : List expression) : var := ⟨name, dims⟩

/-- The struct `distribution`. -/
structure distribution where
  family_ : String
  args_ : List expression

/-- The constructor `distribution()`. -/
def distribution.default : distribution := ⟨"", []⟩

/-- The constructor `distribution(family, args)`. -/
def distribution.ctor (family : String) (args : List expression) : distribution :=
  ⟨family, args⟩

/-- The struct `range`. -/
structure range where
  low_ : expression
  high_ : expression

/-- The constructor `range()`: both members are default-constructed. -/
def range.default : range := ⟨expression.default, expression.default⟩

/-- The constructor `range(low, high)`. -/
def range.ctor (low high : expression) : range := ⟨low, high⟩

/-! ## Variable declarations -/

/-- The struct `int_var_decl`. -/
structure int_var_decl where
  name_ : String
  range_ : range
  dims_ : List expression

/-- The constructor `int_var_decl()`. -/
def int_var_decl.default : int_var_decl := ⟨"", range.default, []⟩

/-- The constructor `int_var_decl(range, name, dims)`. -/
def int_var_decl.ctor (r : range) (name : String) (dims : List expression) :
    int_var_decl := ⟨name, r, dims⟩

/-- The struct `double_var_decl`. -/
structure double_var_decl where
  name_ : String
  range_ : range
  dims_ : List expression

/-- The constructor `double_var_decl()`. -/
def double_var_decl.default : double_var_decl := ⟨"", range.default, []⟩

/-- The constructor `double_var_decl(range, name, dims)`. -/
def double_var_decl.ctor (r : range) (name : String) (dims : List expression) :
    double_var_decl := ⟨name, r, dims⟩

/-- The struct `simplex_var_decl`. -/
structure simplex_var_decl where
  name_ : String
  K_ : expression
  dims_ : List expression

/-- The constructor `simplex_var_decl()`. -/
def simplex_var_decl.default : simplex_var_decl := ⟨"", expression.default, []⟩

/-- The constructor `simplex_var_decl(K, name, dims)`. -/
def simplex_var_decl.ctor (K : expression) (name : String) (dims : List expression) :
    simplex_var_decl := ⟨name, K, dims⟩

/-- The struct `pos_ordered_var_decl`. -/
structure pos_ordered_var_decl where
  name_ : String
  K_ : expression
  dims_ : List expression

/-- The constructor `pos_ordered_var_decl()`. -/
def pos_ordered_var_decl.default : pos_ordered_var_decl := ⟨"", expression.default, []⟩

/-- The constructor `pos_ordered_var_decl(K, name, dims)`. -/
def pos_ordered_var_decl.ctor (K : expression) (name : String)
    (dims : List expression) : pos_ordered_var_decl := ⟨name, K, dims⟩

/-- The struct `vector_var_decl`. -/
structure vector_var_decl where
  name_ : String
  M_ : expression
  dims_ : List expression

/-- The constructor `vector_var_decl()`. -/
def vector_var_decl.default : vector_var_decl := ⟨"", expression.default, []⟩

/-- The constructor `vector_var_decl(M, name, dims)`. -/
def vector_var_decl.ctor (M : expression) (name : String) (dims : List expression) :
    vector_var_decl := ⟨name, M, dims⟩

/-- The struct `row_vector_var_decl`. -/
structure row_vector_var_decl where
  name_ : String
  N_ : expression
  dims_ : List expression

/-- The constructor `row_vector_var_decl()`. -/
def row_vector_var_decl.default : row_vector_var_decl := ⟨"", expression.default, []⟩

/-- The constructor `row_vector_var_decl(N, name, dims)`. -/
def row_vector_var_decl.ctor (N : expression) (name : String)
    (dims : List expression) : row_vector_var_decl := ⟨name, N, dims⟩

/-- The struct `matrix_var_decl`. -/
structure matrix_var_decl where
  name_ : String
  M_ : expression
  N_ : expression
  dims_ : List expression

/-- The constructor `matrix_var_decl()`. -/
def matrix_var_decl.default : matrix_var_decl :=
  ⟨"", expression.default, expression.default, []⟩

/-- The constructor `matrix_var_decl(M, N, name, dims)`. -/
def matrix_var_decl.ctor (M N : expression) (name : String) (dims : List expression) :
    matrix_var_decl := ⟨name, M, N, dims⟩

/-- The struct `cov_matrix_var_decl`. -/
structure cov_matrix_var_decl where
  name_ : String
  K_ : expression
  dims_ : List expression

/-- The constructor `cov_matrix_var_decl()`. -/
def cov_matrix_var_decl.default : cov_matrix_var_decl := ⟨"", expression.default, []⟩

/-- The constructor `cov_matrix_var_decl(K, name, dims)`. -/
def cov_matrix_var_decl.ctor (K : expression) (name : String)
    (dims : List expression) : cov_matrix_var_decl := ⟨name, K, dims⟩

/-- The struct `corr_matrix_var_decl`. -/
structure corr_matrix_var_decl where
  name_ : String
  K_ : expression
  dims_ : List expression

/-- The constructor `corr_matrix_var_decl()`. -/
def corr_matrix_var_decl.default : corr_matrix_var_decl := ⟨"", expression.default, []⟩

/-- The constructor `corr_matrix_var_decl(K, name, dims)`. -/
def corr_matrix_var_decl.ctor (K : expression) (name : String)
    (dims : List expression) : corr_matrix_var_decl := ⟨name, K, dims⟩

/-- The variant `var_decl::type`. -/
inductive var_decl_t : Type where
  | nil : var_decl_t
  | int_var_decl (d : int_var_decl) : var_decl_t
  | double_var_decl (d : double_var_decl) : var_decl_t
  | vector_var_decl (d : vector_var_decl) : var_decl_t
  | row_vector_var_decl (d : row_vector_var_decl) : var_decl_t
  | matrix_var_decl (d : matrix_var_decl) : var_decl_t
  | simplex_var_decl (d : simplex_var_decl) : var_decl_t
  | pos_ordered_var_decl (d : pos_ordered_var_decl) : var_decl_t
  | cov_matrix_var_decl (d : cov_matrix_var_decl) : var_decl_t
  | corr_matrix_var_decl (d : corr_matrix_var_decl) : var_decl_t

/-- The struct `var_decl`: a wrapper around its variant `decl_`. -/
structure var_decl where
  decl_ : var_decl_t

/-- The constructor `var_decl()`: `decl_(nil())`. -/
def var_decl.default : var_decl := ⟨.nil⟩

/-- The constructor template `var_decl(Decl const& decl)`: `decl_(decl)`. -/
def var_decl.ctor (decl : var_decl_t) : var_decl := ⟨decl⟩

/-- The visitor `is_nil_op` applied to a `var_decl::type`: the overload for `nil`
answers `true`, the template overload answers `false` for the nine declarations. -/
def is_nil_op.var_decl_t : var_decl_t → Bool
  | .nil => true
  | .int_var_decl _ => false
  | .double_var_decl _ => false
  | .vector_var_decl _ => false
  | .row_vector_var_decl _ => false
  | .matrix_var_decl _ => false
  | .simplex_var_decl _ => false
  | .pos_ordered_var_decl _ => false
  | .cov_matrix_var_decl _ => false
  | .corr_matrix_var_decl _ => false

/-! ## Statements -/

/-- The struct `assignment`. -/
structure assignment where
  var_ : var
  expr_ : expression

/-- The constructor `assignment()`. -/
def assignment.default : assignment := ⟨var.default, expression.default⟩

/-- The constructor `assignment(var, expr)`. -/
def assignment.ctor (v : var) (expr : expression) : assignment := ⟨v, expr⟩

/-- The struct `sample`. -/
structure sample where
  v_ : var
  dist_ : distribution

/-- The constructor `sample()`. -/
def sample.default : sample := ⟨var.default, distribution.default⟩

/-- The constructor `sample(v, dist)`. -/
def sample.ctor (v : var) (dist : distribution) : sample := ⟨v, dist⟩

mutual
/-- The variant `statement::type`. -/
inductive statement_t : Type where
  | nil : statement_t
  | assignment (a : assignment) : statement_t
  | sample (s : sample) : statement_t
  | statements (ss : statements) : statement_t
  | for_statement (f : for_statement) : statement_t
/-- The struct `statement`: a wrapper around its variant `statement_`. -/
inductive statement : Type where
  | mk (statement_ : statement_t) : statement
/-- The struct `statements`. -/
inductive statements : Type where
  | mk (statements_ : List statement) : statements
/-- The struct `for_statement`. -/
inductive for_statement : Type where
  | mk (variable_ : String) (range_ : range) (statement_ : statement) : for_statement
end

/-- The field `statement_` of a `statement`. -/
def statement.statement_ : statement → statement_t
  | .mk x => x

/-- The constructor `statement()`: `statement_(nil())`. -/
def statement.default : statement := .mk .nil

/-- The constructor template `statement(Statement const& statement)`:
`statement_(statement)`. -/
def statement.ctor (stmt : statement_t) : statement := .mk stmt

/-- The field `statements_` of a `statements`. -/
def statements.statements_ : statements → List statement
  | .mk l => l

/-- The constructor `statements()`. -/
def statements.default : statements := .mk []

/-- The constructor `statements(stmts)`. -/
def statements.ctor (stmts : List statement) : statements := .mk stmts

/-- The field `variable_` of a `for_statement`. -/
def for_statement.variable_ : for_statement → String
  | .mk v _ _ => v

/-- The field `range_` of a `for_statement`. -/
def for_statement.range_ : for_statement → range
  | .mk _ r _ => r

/-- The field `statement_` of a `for_statement`. -/
def for_statement.statement_ : for_statement → statement
  | .mk _ _ s => s

/-- The constructor `for_statement()`. -/
def for_statement.default : for_statement := .mk "" range.default statement.default

/-- The constructor `for_statement(variable, range, stmt)`. -/
def for_statement.ctor (v : String) (r : range) (stmt : statement) :
    for_statement := .mk v r stmt

/-- The visitor `is_nil_op` applied to a `statement::type`: the overload for `nil`
answers `true`, the template overload answers `false` for the four statements. -/
def is_nil_op.statement_t : statement_t → Bool
  | .nil => true
  | .assignment _ => false
  | .sample _ => false
  | .statements _ => false
  | .for_statement _ => false

/-! ## Programs -/

/-- The struct `program`. -/
structure program where
  data_decl_ : List var_decl
  parameter_decl_ : List var_decl
  derived_decl_ : List var_decl
  statement_ : statement

/-- The constructor `program()`. -/
def program.default : program := ⟨[], [], [], statement.default⟩

/-- The constructor `program(data_decl, parameter_decl, derived_decl, stmt)`. -/
def program.ctor (data_decl parameter_decl derived_decl : List var_decl)
    (stmt : statement) : program :=
  ⟨data_decl, parameter_decl, derived_decl, stmt⟩

/-! ## Type descriptors -/

/-- The enum `base_expr_type`. -/
inductive base_expr_type : Type where
  | INT_T
  | DOUBLE_T
  | VECTOR_T
  | ROW_VECTOR_T
  | MATRIX_T
  deriving DecidableEq, Repr

/-- The class `expr_type`; `num_dims_` is an `unsigned int`. -/
structure expr_type where
  base_type_ : base_expr_type
  num_dims_ : Nat

/-- The constructor `expr_type()`: `base_type_(DOUBLE_T), num_dims_(0)`. -/
def expr_type.default : expr_type := ⟨.DOUBLE_T, 0⟩

/-- The constructor `expr_type(base_type)`: `num_dims_(0)`. -/
def expr_type.ctor1 (base_type : base_expr_type) : expr_type := ⟨base_type, 0⟩

/-- The constructor `expr_type(base_type, num_dims)`; the parameter is an
`unsigned int`, a value below `2 ^ 32`. -/
def expr_type.ctor2 (base_type : base_expr_type) (num_dims : Nat) : expr_type :=
  ⟨base_type, num_dims % 2 ^ 32⟩

/-- The member `type()`. -/
def expr_type.type (t : expr_type) : base_expr_type := t.base_type_

/-- The conversion of an `unsigned int` to `int` that `return num_dims_;` performs
in a function returning `int`: the value itself when it is below `2 ^ 31`, and the
value less `2 ^ 32` otherwise (the two's complement reading, which is what the
compilers do and what the language fixes from C++20 on). -/
def unsigned_to_int (u : Nat) : Int :=
  if u % 2 ^ 32 < 2 ^ 31 then ((u % 2 ^ 32 : Nat) : Int)
  else ((u % 2 ^ 32 : Nat) : Int) - 2 ^ 32

/-- The member `num_dims()`: `return num_dims_;` with return type `int`. -/
def expr_type.num_dims (t : expr_type) : Int := unsigned_to_int t.num_dims_

/-! ## Case analysis over the declarations -/

/-- The outcomes of a case analysis over the nine declarations, one per variant. -/
inductive var_decl_tag : Type where
  | int
  | double
  | vector
  | row_vector
  | matrix
  | simplex
  | positive_ordered
  | covariance_matrix
  | correlation_matrix
  deriving DecidableEq, Repr

/-- Modelled from the spec: a visitor over `var_decl::type` with one overload per
bounded type and no template (default) overload, which maps each of the nine
declarations to its own tag; no such visitor is in the header. The overload for the
placeholder `nil`, which a visitor of this variant must have as well, gives no tag. -/
def var_decl_tag_op : var_decl_t → Option var_decl_tag
  | .nil => none
  | .int_var_decl _ => some .int
  | .double_var_decl _ => some .double
  | .vector_var_decl _ => some .vector
  | .row_vector_var_decl _ => some .row_vector
  | .matrix_var_decl _ => some .matrix
  | .simplex_var_decl _ => some .simplex
  | .pos_ordered_var_decl _ => some .positive_ordered
  | .cov_matrix_var_decl _ => some .covariance_matrix
  | .corr_matrix_var_decl _ => some .correlation_matrix

/-! ## Sequences of chain-building operations -/

/-- A choice among the four chain-building operators of `expression`. -/
inductive chain_operator : Type where
  | add_assign
  | sub_assign
  | mul_assign
  | div_assign
  deriving DecidableEq, Repr

/-- The call `e op rhs` for the chosen operator `op` among `+=`, `-=`, `*=`, `/=`. -/
def chain_operator.call : chain_operator → expression → expression →
    expression × expression
  | .add_assign, e, rhs => e.operator_add_assign rhs
  | .sub_assign, e, rhs => e.operator_sub_assign rhs
  | .mul_assign, e, rhs => e.operator_mul_assign rhs
  | .div_assign, e, rhs => e.operator_div_assign rhs

/-- The character of each operator: `'+'` for `+=`, `'-'` for `-=`, `'*'` for `*=`,
`'/'` for `/=`. -/
def chain_operator.code : chain_operator → Char
  | .add_assign => '+'
  | .sub_assign => '-'
  | .mul_assign => '*'
  | .div_assign => '/'

/-- The statements `e o1 a1; e o2 a2; ...; e on an;` run in this order on an object
whose value is `e0` at the start: the value of the object at the end. -/
def run_chain (e0 : expression) (steps : List (chain_operator × expression)) :
    expression :=
  steps.foldl (fun e s => (s.1.call e s.2).1) e0

/-- The tree `(((e0 c1 a1) c2 a2) ... cn an)`, nested to the left, that the claims
speak of: each pair `(c, a)` puts the tree so far under a new binary node, as its
left operand, with code `c` and right operand `a`. -/
def left_nested (e0 : expression) (pairs : List (Char × expression)) : expression :=
  pairs.foldl (fun e p => expression.ctor (.binary_op (binary_op.ctor p.1 e p.2))) e0

/-- A walk down the left spine of a tree through exactly `n` binary nodes, from the
root: the tree reached below the last of them, and the code and right operand of
each node passed, listed from the innermost node to the root. There is no result when
one of the `n` trees met on the way is not a binary node. -/
def left_spine : Nat → expression → Option (expression × List (Char × expression))
  | 0, e => some (e, [])
  | n + 1, .mk (.binary_op (.mk op l r)) =>
      (left_spine n l).map (fun q => (q.1, q.2 ++ [(op, r)]))
  | _ + 1, _ => none

/-! ## Results -/

/-- Rebuilding an expression from its own variant gives the expression back. -/
theorem expression.ctor_expr_ (e : expression) : expression.ctor e.expr_ = e := by
  cases e; rfl

/-- An expression is not the left operand of the left operand of itself. -/
theorem expression.ne_left_left (e a b : expression) (o1 o2 : Char) :
    e ≠ expression.ctor (.binary_op (binary_op.ctor o2
          (expression.ctor (.binary_op (binary_op.ctor o1 e a))) b)) := by
  intro h
  have hs := congrArg sizeOf h
  simp [expression.ctor, binary_op.ctor] at hs
  omega

/-- Each chain-building operator puts the current value under a new binary node
carrying the operator's character. -/
theorem chain_operator.call_fst (op : chain_operator) (e rhs : expression) :
    (op.call e rhs).1 = expression.ctor (.binary_op (binary_op.ctor op.code e rhs)) := by
  cases op <;> cases e <;> rfl

/-- One more statement at the end of a chain acts on the value the chain gives. -/
theorem run_chain_append (e0 : expression) (steps : List (chain_operator × expression))
    (s : chain_operator × expression) :
    run_chain e0 (steps ++ [s]) = (s.1.call (run_chain e0 steps) s.2).1 := by
  simp [run_chain, List.foldl_append]

/-- One more pair at the end of the list puts the tree so far under a new node. -/
theorem left_nested_append (e0 : expression) (pairs : List (Char × expression))
    (p : Char × expression) :
    left_nested e0 (pairs ++ [p])
      = expression.ctor (.binary_op (binary_op.ctor p.1 (left_nested e0 pairs) p.2)) := by
  simp [left_nested, List.foldl_append]

/-- The walk through `n + 1` binary nodes from a binary node is the walk through `n`
nodes from its left operand, followed by the node itself. -/
theorem left_spine_succ (n : Nat) (op : Char) (l r : expression) :
    left_spine (n + 1) (expression.ctor (.binary_op (binary_op.ctor op l r)))
      = (left_spine n l).map (fun q => (q.1, q.2 ++ [(op, r)])) := rfl

/-- A chain of statements builds the left-nested tree of its characters and operands. -/
theorem run_chain_eq_left_nested (e0 : expression)
    (steps : List (chain_operator × expression)) :
    run_chain e0 steps = left_nested e0 (steps.map (fun s => (s.1.code, s.2))) := by
  induction steps using List.reverseRecOn with
  | nil => rfl
  | append_singleton l s ih =>
    rw [run_chain_append, chain_operator.call_fst, ih, List.map_append, List.map_singleton,
      left_nested_append]

/-- The walk down the left-nested tree through as many nodes as there are pairs ends
at the start tree and reads the pairs back in order. -/
theorem left_spine_left_nested (e0 : expression) (pairs : List (Char × expression)) :
    left_spine pairs.length (left_nested e0 pairs) = some (e0, pairs) := by
  induction pairs using List.reverseRecOn with
  | nil => rfl
  | append_singleton l p ih =>
    rw [left_nested_append, List.length_append, List.length_singleton, left_spine_succ, ih]
    rfl

/-- C1: `is_nil` is true of the default-constructed expression and false of an
expression built from any of the seven other alternatives (integer literal, floating
literal, identifier, the empty identifier included, function application, indexing,
binary operation, unary operation); it is true of exactly the expressions holding the
nil alternative, and it does not look below the root: a binary or unary node over
nil operands is not nil. -/
theorem C1_is_nil_expression :
    is_nil expression.default = true
    ∧ (∀ i : Int, is_nil (expression.ctor (.int i)) = false)
    ∧ (∀ d : double, is_nil (expression.ctor (.double d)) = false)
    ∧ (∀ s : String, is_nil (expression.ctor (.string s)) = false)
    ∧ is_nil (expression.ctor (.string "")) = false
    ∧ (∀ f : fun_, is_nil (expression.ctor (.fun_ f)) = false)
    ∧ (∀ x : index_op, is_nil (expression.ctor (.index_op x)) = false)
    ∧ (∀ b : binary_op, is_nil (expression.ctor (.binary_op b)) = false)
    ∧ (∀ u : unary_op, is_nil (expression.ctor (.unary_op u)) = false)
    ∧ (∀ e : expression, is_nil e = true ↔ e.expr_ = expression_t.nil)
    ∧ (∀ op : Char, is_nil (expression.ctor (.binary_op
          (binary_op.ctor op expression.default expression.default))) = false)
    ∧ (∀ op : Char, is_nil (expression.ctor (.unary_op
          (unary_op.ctor op expression.default))) = false) := by
  refine ⟨rfl, fun _ => rfl, fun _ => rfl, fun _ => rfl, rfl, fun _ => rfl,
    fun _ => rfl, fun _ => rfl, fun _ => rfl, ?_, fun _ => rfl, fun _ => rfl⟩
  intro e
  cases e with
  | mk x => cases x <;> simp [is_nil, is_nil_op.expression_t, expression.expr_]

/-- C2: three `+=` in a row, `e0 += a`, then `+= b`, then `+= c`, leave the object
equal to `binary_op('+', binary_op('+', binary_op('+', e0, a), b), c)`, the
left-nested tree: the root is a node with code `'+'` and right operand `c`, its left
operand is a node with code `'+'` and right operand `b`, whose left operand is a
node with code `'+'`, left operand `e0` and right operand `a`. The result differs
from the right-nested tree `e0 + (a + (b + c))`, and it is not one node holding the
four operands (no function-application node, the one node kind with an operand
list). -/
theorem C2_add_assign_thrice (e0 a b c : expression) :
    ((((e0.operator_add_assign a).1).operator_add_assign b).1.operator_add_assign c).1
      = expression.mk (expression_t.binary_op (binary_op.mk '+'
          (expression.mk (expression_t.binary_op (binary_op.mk '+'
            (expression.mk (expression_t.binary_op (binary_op.mk '+' e0 a))) b))) c))
    ∧ (∃ n1 n2 n3 : binary_op,
        ((((e0.operator_add_assign a).1).operator_add_assign b).1.operator_add_assign c).1.expr_
          = expression_t.binary_op n3
        ∧ n3.op = '+' ∧ n3.right = c ∧ n3.left.expr_ = expression_t.binary_op n2
        ∧ n2.op = '+' ∧ n2.right = b ∧ n2.left.expr_ = expression_t.binary_op n1
        ∧ n1.op = '+' ∧ n1.left = e0 ∧ n1.right = a)
    ∧ ((((e0.operator_add_assign a).1).operator_add_assign b).1.operator_add_assign c).1
      = expression.ctor (.binary_op (binary_op.ctor '+'
          (expression.ctor (.binary_op (binary_op.ctor '+'
            (expression.ctor (.binary_op (binary_op.ctor '+' e0 a))) b))) c))
    ∧ ((((e0.operator_add_assign a).1).operator_add_assign b).1.operator_add_assign c).1
      ≠ expression.mk (expression_t.binary_op (binary_op.mk '+' e0
          (expression.mk (expression_t.binary_op (binary_op.mk '+' a
            (expression.mk (expression_t.binary_op (binary_op.mk '+' b c))))))))
    ∧ (∀ (name : String) (args : List expression),
        ((((e0.operator_add_assign a).1).operator_add_assign b).1.operator_add_assign c).1
          ≠ expression.mk (expression_t.fun_ (fun_.mk name args))) := by
  have key :
      ((((e0.operator_add_assign a).1).operator_add_assign b).1.operator_add_assign c).1
        = expression.mk (expression_t.binary_op (binary_op.mk '+'
            (expression.mk (expression_t.binary_op (binary_op.mk '+'
              (expression.mk (expression_t.binary_op (binary_op.mk '+' e0 a))) b))) c)) := by
    cases e0; rfl
  refine ⟨key, ?_, key, ?_, ?_⟩
  · rw [key]
    exact ⟨binary_op.mk '+' e0 a,
      binary_op.mk '+' (expression.mk (expression_t.binary_op (binary_op.mk '+' e0 a))) b,
      binary_op.mk '+' (expression.mk (expression_t.binary_op (binary_op.mk '+'
        (expression.mk (expression_t.binary_op (binary_op.mk '+' e0 a))) b))) c,
      rfl, rfl, rfl, rfl, rfl, rfl, rfl, rfl, rfl, rfl⟩
  · rw [key]
    intro h
    simp only [expression.mk.injEq, expression_t.binary_op.injEq, binary_op.mk.injEq,
      true_and] at h
    exact expression.ne_left_left e0 a b '+' '+' h.1.symm
  · intro name args
    rw [key]
    simp

/-- C3: each of `+=`, `-=`, `*=`, `/=` replaces the current expression `e` by a
binary-operation node whose left operand is the former `e`, whose right operand is
`rhs` and whose operator code is `'+'`, `'-'`, `'*'`, `'/'` respectively; the four
codes are pairwise distinct, and the value returned is the updated expression. -/
theorem C3_chain_operators (e rhs : expression) :
    ((e.operator_add_assign rhs).1
        = expression.ctor (.binary_op (binary_op.ctor '+' e rhs))
      ∧ (e.operator_add_assign rhs).2 = (e.operator_add_assign rhs).1)
    ∧ ((e.operator_sub_assign rhs).1
        = expression.ctor (.binary_op (binary_op.ctor '-' e rhs))
      ∧ (e.operator_sub_assign rhs).2 = (e.operator_sub_assign rhs).1)
    ∧ ((e.operator_mul_assign rhs).1
        = expression.ctor (.binary_op (binary_op.ctor '*' e rhs))
      ∧ (e.operator_mul_assign rhs).2 = (e.operator_mul_assign rhs).1)
    ∧ ((e.operator_div_assign rhs).1
        = expression.ctor (.binary_op (binary_op.ctor '/' e rhs))
      ∧ (e.operator_div_assign rhs).2 = (e.operator_div_assign rhs).1)
    ∧ (∀ op : Char, (binary_op.ctor op e rhs).op = op
        ∧ (binary_op.ctor op e rhs).left = e ∧ (binary_op.ctor op e rhs).right = rhs)
    ∧ ['+', '-', '*', '/'].Nodup := by
  refine ⟨⟨?_, rfl⟩, ⟨?_, rfl⟩, ⟨?_, rfl⟩, ⟨?_, rfl⟩, fun _ => ⟨rfl, rfl, rfl⟩, by decide⟩
  all_goals cases e; rfl

/-- C4: the visitor `is_nil_op`, applied to the variant of a statement, answers `true`
for the default-constructed statement and `false` for a statement holding an
assignment, a sampling statement, a block (the empty block included) or a for-loop;
it answers `true` for exactly the statements holding the nil alternative. -/
theorem C4_is_nil_statement :
    is_nil_op.statement_t statement.default.statement_ = true
    ∧ (∀ a : assignment,
        is_nil_op.statement_t (statement.ctor (.assignment a)).statement_ = false)
    ∧ (∀ sm : sample,
        is_nil_op.statement_t (statement.ctor (.sample sm)).statement_ = false)
    ∧ (∀ ss : statements,
        is_nil_op.statement_t (statement.ctor (.statements ss)).statement_ = false)
    ∧ is_nil_op.statement_t
        (statement.ctor (.statements (statements.ctor []))).statement_ = false
    ∧ is_nil_op.statement_t
        (statement.ctor (.statements statements.default)).statement_ = false
    ∧ (∀ f : for_statement,
        is_nil_op.statement_t (statement.ctor (.for_statement f)).statement_ = false)
    ∧ (∀ s : statement,
        is_nil_op.statement_t s.statement_ = true ↔ s.statement_ = statement_t.nil) := by
  refine ⟨rfl, fun _ => rfl, fun _ => rfl, fun _ => rfl, rfl, rfl, fun _ => rfl, ?_⟩
  intro s
  cases s with
  | mk x => cases x <;> simp [is_nil_op.statement_t, statement.statement_]

/-- C5: the visitor `is_nil_op`, applied to the variant of a variable declaration,
answers `true` for the default-constructed `var_decl` and `false` for a `var_decl`
holding any of the nine declarations, a default-constructed one included; it answers
`true` for exactly the declarations holding the nil alternative. -/
theorem C5_is_nil_var_decl :
    is_nil_op.var_decl_t var_decl.default.decl_ = true
    ∧ (∀ d, is_nil_op.var_decl_t (var_decl.ctor (.int_var_decl d)).decl_ = false)
    ∧ (∀ d, is_nil_op.var_decl_t (var_decl.ctor (.double_var_decl d)).decl_ = false)
    ∧ (∀ d, is_nil_op.var_decl_t (var_decl.ctor (.vector_var_decl d)).decl_ = false)
    ∧ (∀ d, is_nil_op.var_decl_t (var_decl.ctor (.row_vector_var_decl d)).decl_ = false)
    ∧ (∀ d, is_nil_op.var_decl_t (var_decl.ctor (.matrix_var_decl d)).decl_ = false)
    ∧ (∀ d, is_nil_op.var_decl_t (var_decl.ctor (.simplex_var_decl d)).decl_ = false)
    ∧ (∀ d, is_nil_op.var_decl_t (var_decl.ctor (.pos_ordered_var_decl d)).decl_ = false)
    ∧ (∀ d, is_nil_op.var_decl_t (var_decl.ctor (.cov_matrix_var_decl d)).decl_ = false)
    ∧ (∀ d, is_nil_op.var_decl_t (var_decl.ctor (.corr_matrix_var_decl d)).decl_ = false)
    ∧ (is_nil_op.var_decl_t
          (var_decl.ctor (.int_var_decl int_var_decl.default)).decl_ = false
      ∧ is_nil_op.var_decl_t
          (var_decl.ctor (.double_var_decl double_var_decl.default)).decl_ = false
      ∧ is_nil_op.var_decl_t
          (var_decl.ctor (.vector_var_decl vector_var_decl.default)).decl_ = false
      ∧ is_nil_op.var_decl_t
          (var_decl.ctor (.row_vector_var_decl row_vector_var_decl.default)).decl_ = false
      ∧ is_nil_op.var_decl_t
          (var_decl.ctor (.matrix_var_decl matrix_var_decl.default)).decl_ = false
      ∧ is_nil_op.var_decl_t
          (var_decl.ctor (.simplex_var_decl simplex_var_decl.default)).decl_ = false
      ∧ is_nil_op.var_decl_t
          (var_decl.ctor (.pos_ordered_var_decl pos_ordered_var_decl.default)).decl_ = false
      ∧ is_nil_op.var_decl_t
          (var_decl.ctor (.cov_matrix_var_decl cov_matrix_var_decl.default)).decl_ = false
      ∧ is_nil_op.var_decl_t
          (var_decl.ctor (.corr_matrix_var_decl corr_matrix_var_decl.default)).decl_ = false)
    ∧ (∀ d : var_decl, is_nil_op.var_decl_t d.decl_ = true ↔ d.decl_ = var_decl_t.nil) := by
  refine ⟨rfl, fun _ => rfl, fun _ => rfl, fun _ => rfl, fun _ => rfl, fun _ => rfl,
    fun _ => rfl, fun _ => rfl, fun _ => rfl, fun _ => rfl,
    ⟨rfl, rfl, rfl, rfl, rfl, rfl, rfl, rfl, rfl⟩, ?_⟩
  intro d
  cases d with
  | mk x => cases x <;> simp [is_nil_op.var_decl_t]

/-- C6: the for-loop `for_statement(v, r, body)` holds `variable_ = v`,
`range_.low_ = r.low_`, `range_.high_ = r.high_` and `statement_ = body`; built from
the name `"n"`, the range of the literals 1 and 10 and a block of one assignment, it
holds `"n"`, the endpoints 1 and 10 and that very block. -/
theorem C6_for_statement_fields (v : String) (r : range) (body : statement) :
    ((for_statement.ctor v r body).variable_ = v
      ∧ (for_statement.ctor v r body).range_.low_ = r.low_
      ∧ (for_statement.ctor v r body).range_.high_ = r.high_
      ∧ (for_statement.ctor v r body).statement_ = body)
    ∧ (∀ (target : var) (value : expression),
        (for_statement.ctor "n"
            (range.ctor (expression.ctor (.int 1)) (expression.ctor (.int 10)))
            (statement.ctor (.statements (statements.ctor
              [statement.ctor (.assignment (assignment.ctor target value))])))).variable_
          = "n"
        ∧ (for_statement.ctor "n"
            (range.ctor (expression.ctor (.int 1)) (expression.ctor (.int 10)))
            (statement.ctor (.statements (statements.ctor
              [statement.ctor (.assignment (assignment.ctor target value))])))).range_.low_
          = expression.ctor (.int 1)
        ∧ (for_statement.ctor "n"
            (range.ctor (expression.ctor (.int 1)) (expression.ctor (.int 10)))
            (statement.ctor (.statements (statements.ctor
              [statement.ctor (.assignment (assignment.ctor target value))])))).range_.high_
          = expression.ctor (.int 10)
        ∧ (for_statement.ctor "n"
            (range.ctor (expression.ctor (.int 1)) (expression.ctor (.int 10)))
            (statement.ctor (.statements (statements.ctor
              [statement.ctor (.assignment (assignment.ctor target value))])))).statement_
          = statement.ctor (.statements (statements.ctor
              [statement.ctor (.assignment (assignment.ctor target value))]))) :=
  ⟨⟨rfl, rfl, rfl, rfl⟩, fun _ _ => ⟨rfl, rfl, rfl, rfl⟩⟩

/-- C7: the indexing node built on the identifier `"x"` with the one index group `[i]`
and then given the group `[j, k]` has base `"x"` and exactly the two groups `[i]`,
`[j, k]`, in that order: they are not merged into `[i, j, k]`, not swapped, and each
keeps its expressions in the given order. The constructor `index_op(expr, dimss)`
itself keeps a list of groups as it is given. -/
theorem C7_index_groups (i j k : expression) :
    ((index_op.ctor (expression.ctor (.string "x")) [[i]]).push_back_dims [j, k]).expr_
        = expression.ctor (.string "x")
    ∧ ((index_op.ctor (expression.ctor (.string "x")) [[i]]).push_back_dims [j, k]).dimss_
        = [[i], [j, k]]
    ∧ ((index_op.ctor (expression.ctor (.string "x")) [[i]]).push_back_dims
          [j, k]).dimss_.length = 2
    ∧ ((index_op.ctor (expression.ctor (.string "x")) [[i]]).push_back_dims [j, k]).dimss_
        ≠ [[i, j, k]]
    ∧ ((index_op.ctor (expression.ctor (.string "x")) [[i]]).push_back_dims [j, k]).dimss_
        ≠ [[j, k], [i]]
    ∧ (∀ (base : expression) (dimss : List (List expression)),
        (index_op.ctor base dimss).expr_ = base
        ∧ (index_op.ctor base dimss).dimss_ = dimss) := by
  refine ⟨rfl, rfl, rfl, ?_, ?_, fun _ _ => ⟨rfl, rfl⟩⟩
  · simp [index_op.push_back_dims, index_op.ctor, index_op.dimss_]
  · simp [index_op.push_back_dims, index_op.ctor, index_op.dimss_]

/-- C8: `program(data, params, derived, body)` holds `data_decl_ = data`,
`parameter_decl_ = params`, `derived_decl_ = derived` and `statement_ = body`: each
list is kept as given (same length, same element at every position) and no list
takes the place of another. -/
theorem C8_program_fields (data params derived : List var_decl) (body : statement) :
    (program.ctor data params derived body).data_decl_ = data
    ∧ (program.ctor data params derived body).parameter_decl_ = params
    ∧ (program.ctor data params derived body).derived_decl_ = derived
    ∧ (program.ctor data params derived body).statement_ = body
    ∧ (program.ctor data params derived body).data_decl_.length = data.length
    ∧ (program.ctor data params derived body).parameter_decl_.length = params.length
    ∧ (program.ctor data params derived body).derived_decl_.length = derived.length
    ∧ (∀ n : Nat, (program.ctor data params derived body).data_decl_.get? n = data.get? n
        ∧ (program.ctor data params derived body).parameter_decl_.get? n = params.get? n
        ∧ (program.ctor data params derived body).derived_decl_.get? n = derived.get? n) :=
  ⟨rfl, rfl, rfl, rfl, rfl, rfl, rfl, fun _ => ⟨rfl, rfl, rfl⟩⟩

/-- C9: evaluation of `num_dims()` at the descriptor `expr_type(INT_T, 2147483648u)`:
the stored count is `2147483648`, and the accessor, converting it to `int`, reports
`-2147483648`, which is below zero; the default descriptor and a descriptor built
from a base kind alone report `0`. -/
theorem C9_num_dims_at_two_pow_31 :
    (expr_type.ctor2 .INT_T 2147483648).num_dims_ = 2147483648
    ∧ (expr_type.ctor2 .INT_T 2147483648).num_dims = -2147483648
    ∧ ¬ (0 ≤ (expr_type.ctor2 .INT_T 2147483648).num_dims)
    ∧ expr_type.default.num_dims = 0
    ∧ (∀ b : base_expr_type, (expr_type.ctor1 b).num_dims = 0) := by
  refine ⟨by decide, by decide, by decide, by decide, ?_⟩
  intro b
  cases b <;> decide

/-- C10, the claim fails: the node `binary_op('^', nil, nil)` carries the operator
code `'^'`, which is none of `'+'`, `'-'`, `'*'`, `'/'`. -/
theorem C10_counterexample :
    (binary_op.ctor '^' expression.default expression.default).op = '^'
    ∧ (binary_op.ctor '^' expression.default expression.default).op
        ∉ ['+', '-', '*', '/']
    ∧ ¬ (∀ (op : Char) (l r : expression),
          (binary_op.ctor op l r).op ∈ ['+', '-', '*', '/']) := by
  refine ⟨rfl, by decide, ?_⟩
  intro h
  exact absurd (h '^' expression.default expression.default) (by decide)

/-- C10, amended: `binary_op(op, l, r)` carries the code `op` it is given, whatever
character that is; the node that `+=`, `-=`, `*=` or `/=` puts in place of the
expression carries `'+'`, `'-'`, `'*'`, `'/'` respectively, a code among those four. -/
theorem C10_operator_codes (op : Char) (l r e rhs : expression) :
    (binary_op.ctor op l r).op = op
    ∧ (∃ b, (e.operator_add_assign rhs).1.expr_ = .binary_op b ∧ b.op = '+'
          ∧ b.op ∈ ['+', '-', '*', '/'])
    ∧ (∃ b, (e.operator_sub_assign rhs).1.expr_ = .binary_op b ∧ b.op = '-'
          ∧ b.op ∈ ['+', '-', '*', '/'])
    ∧ (∃ b, (e.operator_mul_assign rhs).1.expr_ = .binary_op b ∧ b.op = '*'
          ∧ b.op ∈ ['+', '-', '*', '/'])
    ∧ (∃ b, (e.operator_div_assign rhs).1.expr_ = .binary_op b ∧ b.op = '/'
          ∧ b.op ∈ ['+', '-', '*', '/']) :=
  ⟨rfl, ⟨_, rfl, rfl, by simp [binary_op.ctor, binary_op.op]⟩,
    ⟨_, rfl, rfl, by simp [binary_op.ctor, binary_op.op]⟩,
    ⟨_, rfl, rfl, by simp [binary_op.ctor, binary_op.op]⟩,
    ⟨_, rfl, rfl, by simp [binary_op.ctor, binary_op.op]⟩⟩

/-- C11: the variant of a variable declaration has the placeholder and exactly nine
other alternatives; the case analysis that tags the nine declarations gives a tag
for every declaration that is not the placeholder, the tag is that of the variant
and of no other (so declarations of different variants never share a tag), it does
not depend on what the declaration holds, and the nine tags are pairwise distinct. -/
theorem C11_var_decl_tags :
    (∀ d : var_decl_t, d = .nil
        ∨ (∃ x, d = .int_var_decl x) ∨ (∃ x, d = .double_var_decl x)
        ∨ (∃ x, d = .vector_var_decl x) ∨ (∃ x, d = .row_vector_var_decl x)
        ∨ (∃ x, d = .matrix_var_decl x) ∨ (∃ x, d = .simplex_var_decl x)
        ∨ (∃ x, d = .pos_ordered_var_decl x) ∨ (∃ x, d = .cov_matrix_var_decl x)
        ∨ (∃ x, d = .corr_matrix_var_decl x))
    ∧ (∀ d : var_decl_t, var_decl_tag_op d = none ↔ d = .nil)
    ∧ (∀ d : var_decl_t,
        (var_decl_tag_op d = some .int ↔ ∃ x, d = .int_var_decl x)
        ∧ (var_decl_tag_op d = some .double ↔ ∃ x, d = .double_var_decl x)
        ∧ (var_decl_tag_op d = some .vector ↔ ∃ x, d = .vector_var_decl x)
        ∧ (var_decl_tag_op d = some .row_vector ↔ ∃ x, d = .row_vector_var_decl x)
        ∧ (var_decl_tag_op d = some .matrix ↔ ∃ x, d = .matrix_var_decl x)
        ∧ (var_decl_tag_op d = some .simplex ↔ ∃ x, d = .simplex_var_decl x)
        ∧ (var_decl_tag_op d = some .positive_ordered ↔ ∃ x, d = .pos_ordered_var_decl x)
        ∧ (var_decl_tag_op d = some .covariance_matrix ↔ ∃ x, d = .cov_matrix_var_decl x)
        ∧ (var_decl_tag_op d = some .correlation_matrix
            ↔ ∃ x, d = .corr_matrix_var_decl x))
    ∧ (∀ (x1 : int_var_decl) (x2 : double_var_decl) (x3 : vector_var_decl)
        (x4 : row_vector_var_decl) (x5 : matrix_var_decl) (x6 : simplex_var_decl)
        (x7 : pos_ordered_var_decl) (x8 : cov_matrix_var_decl)
        (x9 : corr_matrix_var_decl),
        [var_decl_tag_op (.int_var_decl x1), var_decl_tag_op (.double_var_decl x2),
          var_decl_tag_op (.vector_var_decl x3), var_decl_tag_op (.row_vector_var_decl x4),
          var_decl_tag_op (.matrix_var_decl x5), var_decl_tag_op (.simplex_var_decl x6),
          var_decl_tag_op (.pos_ordered_var_decl x7),
          var_decl_tag_op (.cov_matrix_var_decl x8),
          var_decl_tag_op (.corr_matrix_var_decl x9)].Nodup)
    ∧ (∀ x y : int_var_decl,
        var_decl_tag_op (.int_var_decl x) = var_decl_tag_op (.int_var_decl y))
    ∧ (∀ x y : double_var_decl,
        var_decl_tag_op (.double_var_decl x) = var_decl_tag_op (.double_var_decl y))
    ∧ (∀ x y : vector_var_decl,
        var_decl_tag_op (.vector_var_decl x) = var_decl_tag_op (.vector_var_decl y))
    ∧ (∀ x y : row_vector_var_decl,
        var_decl_tag_op (.row_vector_var_decl x) = var_decl_tag_op (.row_vector_var_decl y))
    ∧ (∀ x y : matrix_var_decl,
        var_decl_tag_op (.matrix_var_decl x) = var_decl_tag_op (.matrix_var_decl y))
    ∧ (∀ x y : simplex_var_decl,
        var_decl_tag_op (.simplex_var_decl x) = var_decl_tag_op (.simplex_var_decl y))
    ∧ (∀ x y : pos_ordered_var_decl,
        var_decl_tag_op (.pos_ordered_var_decl x) = var_decl_tag_op (.pos_ordered_var_decl y))
    ∧ (∀ x y : cov_matrix_var_decl,
        var_decl_tag_op (.cov_matrix_var_decl x) = var_decl_tag_op (.cov_matrix_var_decl y))
    ∧ (∀ x y : corr_matrix_var_decl,
        var_decl_tag_op (.corr_matrix_var_decl x)
          = var_decl_tag_op (.corr_matrix_var_decl y)) := by
  refine ⟨?_, ?_, ?_, ?_, fun _ _ => rfl, fun _ _ => rfl, fun _ _ => rfl, fun _ _ => rfl,
    fun _ _ => rfl, fun _ _ => rfl, fun _ _ => rfl, fun _ _ => rfl, fun _ _ => rfl⟩
  · intro d
    cases d <;> simp
  · intro d
    cases d <;> simp [var_decl_tag_op]
  · intro d
    cases d <;> simp [var_decl_tag_op]
  · intro x1 x2 x3 x4 x5 x6 x7 x8 x9
    simp [var_decl_tag_op]

/-- C13: each of the nine declaration constructors puts its arguments in the members
of the same name: `matrix_var_decl(M, N, name, dims)` has `M_ = M`, `N_ = N`,
`name_ = name`, `dims_ = dims`; `int_var_decl(r, name, dims)` and
`double_var_decl(r, name, dims)` have `range_ = r`, `name_ = name`, `dims_ = dims`;
the six declarations with one size have that size, `name_ = name` and `dims_ = dims`,
the list of extra dimensions being kept as given. -/
theorem C13_var_decl_constructors (M N K : expression) (r : range) (name : String)
    (dims : List expression) :
    ((matrix_var_decl.ctor M N name dims).M_ = M
      ∧ (matrix_var_decl.ctor M N name dims).N_ = N
      ∧ (matrix_var_decl.ctor M N name dims).name_ = name
      ∧ (matrix_var_decl.ctor M N name dims).dims_ = dims)
    ∧ ((int_var_decl.ctor r name dims).range_ = r
      ∧ (int_var_decl.ctor r name dims).name_ = name
      ∧ (int_var_decl.ctor r name dims).dims_ = dims)
    ∧ ((double_var_decl.ctor r name dims).range_ = r
      ∧ (double_var_decl.ctor r name dims).name_ = name
      ∧ (double_var_decl.ctor r name dims).dims_ = dims)
    ∧ ((vector_var_decl.ctor M name dims).M_ = M
      ∧ (vector_var_decl.ctor M name dims).name_ = name
      ∧ (vector_var_decl.ctor M name dims).dims_ = dims)
    ∧ ((row_vector_var_decl.ctor N name dims).N_ = N
      ∧ (row_vector_var_decl.ctor N name dims).name_ = name
      ∧ (row_vector_var_decl.ctor N name dims).dims_ = dims)
    ∧ ((simplex_var_decl.ctor K name dims).K_ = K
      ∧ (simplex_var_decl.ctor K name dims).name_ = name
      ∧ (simplex_var_decl.ctor K name dims).dims_ = dims)
    ∧ ((pos_ordered_var_decl.ctor K name dims).K_ = K
      ∧ (pos_ordered_var_decl.ctor K name dims).name_ = name
      ∧ (pos_ordered_var_decl.ctor K name dims).dims_ = dims)
    ∧ ((cov_matrix_var_decl.ctor K name dims).K_ = K
      ∧ (cov_matrix_var_decl.ctor K name dims).name_ = name
      ∧ (cov_matrix_var_decl.ctor K name dims).dims_ = dims)
    ∧ ((corr_matrix_var_decl.ctor K name dims).K_ = K
      ∧ (corr_matrix_var_decl.ctor K name dims).name_ = name
      ∧ (corr_matrix_var_decl.ctor K name dims).dims_ = dims) :=
  ⟨⟨rfl, rfl, rfl, rfl⟩, ⟨rfl, rfl, rfl⟩, ⟨rfl, rfl, rfl⟩, ⟨rfl, rfl, rfl⟩,
    ⟨rfl, rfl, rfl⟩, ⟨rfl, rfl, rfl⟩, ⟨rfl, rfl, rfl⟩, ⟨rfl, rfl, rfl⟩, ⟨rfl, rfl, rfl⟩⟩

/-- C14: a sequence of `n` chain-building statements `e o1 a1; ...; e on an;`, each
`oi` one of `+=`, `-=`, `*=`, `/=`, run on an object of value `e0`, leaves the
left-nested tree of the characters and operands: walking down its left spine through
exactly `n` binary nodes ends at `e0`, and the codes and right operands of the nodes
passed, from the innermost to the root, are those of `o1, a1`, ..., `on, an` in this
order. Nothing is reordered by precedence: `e0 += a` and then `*= b` give
`('*', ('+', e0, a), b)`. -/
theorem C14_left_fold (e0 : expression) (steps : List (chain_operator × expression)) :
    run_chain e0 steps = left_nested e0 (steps.map (fun s => (s.1.code, s.2)))
    ∧ left_spine steps.length (run_chain e0 steps)
        = some (e0, steps.map (fun s => (s.1.code, s.2)))
    ∧ (∀ a b : expression,
        run_chain e0 [(.add_assign, a), (.mul_assign, b)]
          = expression.ctor (.binary_op (binary_op.ctor '*'
              (expression.ctor (.binary_op (binary_op.ctor '+' e0 a))) b)))
    ∧ (∀ a b : expression,
        run_chain e0 [(.add_assign, a), (.mul_assign, b)]
          ≠ expression.ctor (.binary_op (binary_op.ctor '+' e0
              (expression.ctor (.binary_op (binary_op.ctor '*' a b)))))) := by
  have h := run_chain_eq_left_nested e0 steps
  have hab : ∀ a b : expression,
      run_chain e0 [(.add_assign, a), (.mul_assign, b)]
        = expression.ctor (.binary_op (binary_op.ctor '*'
            (expression.ctor (.binary_op (binary_op.ctor '+' e0 a))) b)) := by
    intro a b
    cases e0; rfl
  refine ⟨h, ?_, hab, ?_⟩
  · rw [h]
    have hl := left_spine_left_nested e0 (steps.map (fun s => (s.1.code, s.2)))
    rw [List.length_map] at hl
    exact hl
  · intro a b
    rw [hab]
    simp [expression.ctor, binary_op.ctor]

/-- C16: the accessors give back what the descriptor was built from: the default
descriptor has `type() = DOUBLE_T` and `num_dims() = 0`; `expr_type(b)` has
`type() = b` and `num_dims() = 0` for every base kind `b`; `expr_type(b, n)` has
`type() = b` and `num_dims() = n` for every base kind `b` and every `n` below
`2 ^ 31`. -/
theorem C16_expr_type_accessors (b : base_expr_type) (n : Nat) (h : n < 2 ^ 31) :
    expr_type.default.type = .DOUBLE_T
    ∧ expr_type.default.num_dims = 0
    ∧ (expr_type.ctor1 b).type = b
    ∧ (expr_type.ctor1 b).num_dims = 0
    ∧ (expr_type.ctor2 b n).type = b
    ∧ (expr_type.ctor2 b n).num_dims = (n : Int) := by
  refine ⟨rfl, by decide, rfl, by cases b <;> decide, rfl, ?_⟩
  have h32 : n % 2 ^ 32 = n := Nat.mod_eq_of_lt (by omega)
  simp only [expr_type.num_dims, expr_type.ctor2, unsigned_to_int, Nat.mod_mod, h32]
  rw [if_pos h]

/-- C16 at the matrix kind with three dimensions. -/
theorem C16_expr_type_accessors_witness :
    3 < 2 ^ 31
    ∧ expr_type.default.type = .DOUBLE_T
    ∧ expr_type.default.num_dims = 0
    ∧ (expr_type.ctor1 .MATRIX_T).type = .MATRIX_T
    ∧ (expr_type.ctor1 .MATRIX_T).num_dims = 0
    ∧ (expr_type.ctor2 .MATRIX_T 3).type = .MATRIX_T
    ∧ (expr_type.ctor2 .MATRIX_T 3).num_dims = ((3 : Nat) : Int) :=
  ⟨by decide, C16_expr_type_accessors .MATRIX_T 3 (by decide)⟩

/-- C17: the default-constructed composites hold the nil alternative in every
expression and statement member: the default `range` has both endpoints nil; the
default `int_var_decl` and `double_var_decl` have the empty name, no extra dimension
and a range with both endpoints nil; the default `for_statement` has the empty
variable name, both range endpoints nil and a nil body. -/
theorem C17_default_composites :
    (is_nil range.default.low_ = true ∧ is_nil range.default.high_ = true)
    ∧ (int_var_decl.default.name_ = ""
      ∧ int_var_decl.default.dims_ = []
      ∧ is_nil int_var_decl.default.range_.low_ = true
      ∧ is_nil int_var_decl.default.range_.high_ = true)
    ∧ (double_var_decl.default.name_ = ""
      ∧ double_var_decl.default.dims_ = []
      ∧ is_nil double_var_decl.default.range_.low_ = true
      ∧ is_nil double_var_decl.default.range_.high_ = true)
    ∧ (for_statement.default.variable_ = ""
      ∧ is_nil for_statement.default.range_.low_ = true
      ∧ is_nil for_statement.default.range_.high_ = true
      ∧ is_nil_op.statement_t for_statement.default.statement_.statement_ = true
      ∧ for_statement.default.statement_ = statement.default) :=
  ⟨⟨rfl, rfl⟩, ⟨rfl, rfl, rfl, rfl⟩, ⟨rfl, rfl, rfl, rfl⟩, ⟨rfl, rfl, rfl, rfl, rfl⟩⟩

end stan.gm
